import Mathlib

/-!
Shallow embedding of the Supply-Chain-Resilience-Graph core
(`graph_model.py`, `disruption_simulator.py`, `rerouting_agent.py`).

The source talks to Neo4j through Cypher queries; the embedding models the
graph database as an in-memory store: node lists per label (kept in creation
order, which stands in for Neo4j's otherwise unspecified scan order) and edge
lists of id pairs per relationship type.
Each Cypher statement is translated clause by clause: `MATCH` on a node by id
becomes an `Option`-valued lookup, `MERGE` becomes update-or-append,
`SET` clauses are applied sequentially (so aliased matches see earlier
updates, as in Neo4j), and a query whose pattern does not match performs no
write and yields no row.  The numeric values (weights, capacities,
coordinates) are Python floats in the source; every operation the modelled
code performs on them — addition, subtraction, multiplication, order
comparison — is exact, so they are embedded as integers (`ℤ`), keeping every
definition and concrete state kernel-evaluable.  The one true division (the
ETA estimate) is carried out in `ℚ` over a symbolic square-root parameter and
is never compared by any claim.

`find_nearest_available_trucks` sorts by `sqrt((Δlat)² + (Δlon)²)`.  Square
root is strictly monotone on nonnegative numbers, so sorting by the radicand
produces exactly the same order and the same ties; the embedding therefore
carries the squared planar distance as the sort key (`distSq`), keeping it
executable.  Where the rerouting agent later feeds such a distance through
`sqrt` to make an ETA (a value no claim inspects), the square-root function
is passed as an explicit parameter `sqrtF`.

Wall-clock timestamps (`datetime.now()`) and the pseudo-random draws of
`random.choice` are outside a shallow embedding; timestamp fields are
omitted and the random choices of failure category / severity are explicit
arguments.
-/

namespace SupplyChain

/-- Truck node, fields as written by `create_truck` in `graph_model.py`. -/
structure Truck where
  truck_id : String
  capacity : ℤ
  available_capacity : ℤ
  current_lat : ℤ
  current_lon : ℤ
  status : String
  direction : Option String
deriving DecidableEq, Repr

/-- Package node, fields as written by `create_package` (`expected_eta`, a
wall-clock string no modelled operation reads, is omitted). -/
structure Package where
  package_id : String
  weight : ℤ
  destination_lat : ℤ
  destination_lon : ℤ
  status : String
  priority : String
deriving DecidableEq, Repr

/-- Customer node, fields as written by `create_customer`. -/
structure Customer where
  customer_id : String
  name : String
  lat : ℤ
  lon : ℤ
  sla_hours : ℤ
deriving DecidableEq, Repr

/-- The graph database state: node lists (in creation order, standing in for
Neo4j's scan order) and directed edge lists of id pairs.  `carrying` holds
(truck_id, package_id) CARRYING edges, `destined` holds
(package_id, customer_id) DESTINED_FOR edges. -/
structure Store where
  trucks : List Truck
  packages : List Package
  customers : List Customer
  carrying : List (String × String)
  destined : List (String × String)
deriving DecidableEq, Repr

def emptyStore : Store := ⟨[], [], [], [], []⟩

/-- `MATCH (t:Truck {truck_id: $truck_id})`: lookup by unique id. -/
def findTruck (l : List Truck) (tid : String) : Option Truck :=
  l.find? (fun t => t.truck_id == tid)

def getTruck (s : Store) (tid : String) : Option Truck :=
  findTruck s.trucks tid

/-- `SET` on the truck matched by id (ids are unique by schema constraint). -/
def updateTruck (l : List Truck) (tid : String) (f : Truck → Truck) : List Truck :=
  l.map (fun t => if t.truck_id == tid then f t else t)

def getPackage (s : Store) (pid : String) : Option Package :=
  s.packages.find? (fun p => p.package_id == pid)

def updatePackage (l : List Package) (pid : String) (f : Package → Package) : List Package :=
  l.map (fun p => if p.package_id == pid then f p else p)

def getCustomer (s : Store) (cid : String) : Option Customer :=
  s.customers.find? (fun c => c.customer_id == cid)

/-- `create_truck`: `MERGE (t:Truck {truck_id})` then `SET` every property;
note the source re-`SET`s `available_capacity = $capacity` even when the node
already existed. -/
def createTruck (s : Store) (tid : String) (capacity lat lon : ℤ)
    (status : String) (direction : Option String) : Store :=
  if s.trucks.any (fun t => t.truck_id == tid) then
    { s with trucks := updateTruck s.trucks tid (fun t =>
        { t with capacity := capacity, available_capacity := capacity,
                 current_lat := lat, current_lon := lon,
                 status := status, direction := direction }) }
  else
    { s with trucks := s.trucks ++ [⟨tid, capacity, capacity, lat, lon, status, direction⟩] }

/-- `create_package`: `MERGE (p:Package {package_id})` then `SET`. -/
def createPackage (s : Store) (pid : String) (weight dlat dlon : ℤ)
    (status priority : String) : Store :=
  if s.packages.any (fun p => p.package_id == pid) then
    { s with packages := updatePackage s.packages pid (fun p =>
        { p with weight := weight, destination_lat := dlat, destination_lon := dlon,
                 status := status, priority := priority }) }
  else
    { s with packages := s.packages ++ [⟨pid, weight, dlat, dlon, status, priority⟩] }

/-- `create_customer`: `MERGE (c:Customer {customer_id})` then `SET`. -/
def createCustomer (s : Store) (cid name : String) (lat lon sla : ℤ) : Store :=
  if s.customers.any (fun c => c.customer_id == cid) then
    { s with customers := s.customers.map (fun c =>
        if c.customer_id == cid then ⟨cid, name, lat, lon, sla⟩ else c) }
  else
    { s with customers := s.customers ++ [⟨cid, name, lat, lon, sla⟩] }

/-- `assign_package_to_truck`: `MATCH` truck and package, `MERGE` the CARRYING
edge, then unconditionally
`SET t.available_capacity = t.available_capacity - p.weight, p.status = 'in_transit'`.
The `SET` clause runs whether `MERGE` created or merely matched the edge.
Returns whether a row was produced (both nodes exist). -/
def assignPackageToTruck (s : Store) (tid pid : String) : Bool × Store :=
  match getTruck s tid, getPackage s pid with
  | some _, some p =>
      (true, { s with
        carrying := if (tid, pid) ∈ s.carrying then s.carrying else s.carrying ++ [(tid, pid)],
        trucks := updateTruck s.trucks tid (fun t =>
          { t with available_capacity := t.available_capacity - p.weight }),
        packages := updatePackage s.packages pid (fun q => { q with status := "in_transit" }) })
  | _, _ => (false, s)

/-- `assign_package_destination`: `MATCH` both nodes, `MERGE` the DESTINED_FOR
edge. -/
def assignPackageDestination (s : Store) (pid cid : String) : Bool × Store :=
  match getPackage s pid, getCustomer s cid with
  | some _, some _ =>
      (true, { s with
        destined := if (pid, cid) ∈ s.destined then s.destined else s.destined ++ [(pid, cid)] })
  | _, _ => (false, s)

/-- `update_truck_status`. -/
def updateTruckStatus (s : Store) (tid status : String) : Bool × Store :=
  match getTruck s tid with
  | some _ => (true, { s with trucks := updateTruck s.trucks tid (fun t => { t with status := status }) })
  | none => (false, s)

/-- `update_truck_location`. -/
def updateTruckLocation (s : Store) (tid : String) (lat lon : ℤ) : Bool × Store :=
  match getTruck s tid with
  | some _ => (true, { s with trucks := updateTruck s.trucks tid (fun t =>
      { t with current_lat := lat, current_lon := lon }) })
  | none => (false, s)

/-- `get_truck_packages`: `MATCH (t {truck_id})-[:CARRYING]->(p)`. -/
def getTruckPackages (s : Store) (tid : String) : List Package :=
  (s.carrying.filter (fun e => e.1 == tid)).filterMap (fun e => getPackage s e.2)

/-- Sum of the weights of the packages currently CARRYING-linked to a truck
(the quantity the spec's conservation invariant is stated over). -/
def carriedWeight (s : Store) (tid : String) : ℤ :=
  ((getTruckPackages s tid).map Package.weight).sum

/-- The trucks CARRYING-linked to a package: its current carriers. -/
def carriersOf (s : Store) (pid : String) : List String :=
  (s.carrying.filter (fun e => e.2 == pid)).map (fun e => e.1)

/-- The `SET from.available_capacity = from.available_capacity + p.weight` clause. -/
def creditW (w : ℤ) (t : Truck) : Truck :=
  { t with available_capacity := t.available_capacity + w }

/-- The `SET to.available_capacity = to.available_capacity - p.weight` clause. -/
def debitW (w : ℤ) (t : Truck) : Truck :=
  { t with available_capacity := t.available_capacity - w }

/-- `transfer_package`: the single Cypher statement
`MATCH (from)-[r:CARRYING]->(p) MATCH (to) WHERE to.available_capacity >= p.weight
DELETE r CREATE (to)-[:CARRYING]->(p) SET from.available_capacity += w, to -= w`.
When any `MATCH`/`WHERE` clause fails there is no row: nothing is written and
`result.single()` is `None`, so the method returns `False` with the store
untouched.  The two `SET` clauses are applied sequentially, so a transfer with
`from = to` nets to zero, as in Neo4j. -/
def transferPackage (s : Store) (pid fromId toId : String) : Bool × Store :=
  match getTruck s fromId, getPackage s pid, getTruck s toId with
  | some _, some p, some toT =>
      if (fromId, pid) ∈ s.carrying ∧ p.weight ≤ toT.available_capacity then
        (true, { s with
          carrying := (s.carrying.filter (fun e => decide (e ≠ (fromId, pid)))) ++ [(toId, pid)],
          trucks := updateTruck (updateTruck s.trucks fromId (creditW p.weight)) toId
            (debitW p.weight) })
      else (false, s)
  | _, _, _ => (false, s)

/-- The `WHERE` filter of `find_nearest_available_trucks`: status `active`,
`available_capacity >= $min_capacity`, and, when a direction is supplied,
`t.direction = $direction` (a truck whose direction is null never equals a
supplied direction, as in Cypher three-valued logic). -/
def truckMatches (t : Truck) (minCapacity : ℤ) (direction : Option String) : Bool :=
  t.status == "active" && decide (minCapacity ≤ t.available_capacity) &&
    (match direction with
     | none => true
     | some d => t.direction == some d)

/-- Squared planar distance `(Δlat)² + (Δlon)²` over raw degrees.  The source
orders by `sqrt` of this; `sqrt` is strictly monotone on nonnegatives, so
ordering and ties by `distSq` coincide with ordering and ties by the source's
distance, and the embedding keeps this rational radicand as the sort key. -/
def distSq (lat lon : ℤ) (t : Truck) : ℤ :=
  (t.current_lat - lat) * (t.current_lat - lat) + (t.current_lon - lon) * (t.current_lon - lon)

/-- The comparison `ORDER BY distance` sorts under. -/
def distKeyLE (a b : Truck × ℤ) : Prop := a.2 ≤ b.2

instance distKeyLE.decRel : DecidableRel distKeyLE :=
  fun a b => inferInstanceAs (Decidable (a.2 ≤ b.2))

instance distKeyLE.total : IsTotal (Truck × ℤ) distKeyLE :=
  ⟨fun a b => le_total a.2 b.2⟩

instance distKeyLE.trans : IsTrans (Truck × ℤ) distKeyLE :=
  ⟨fun _ _ _ => le_trans⟩

/-- `find_nearest_available_trucks`: filter by `truckMatches`, attach the
distance key, `ORDER BY distance` (a stable sort of the scan order; Neo4j
leaves tie order unspecified and the query has no secondary sort key), then
`LIMIT $limit`.  Returns (truck, distance-key) rows. -/
def findNearestAvailableTrucks (s : Store) (lat lon minCapacity : ℤ)
    (direction : Option String) (limit : Nat) : List (Truck × ℤ) :=
  (((s.trucks.filter (fun t => truckMatches t minCapacity direction)).map
      (fun t => (t, distSq lat lon t))).insertionSort distKeyLE).take limit

/-- Result record of `get_impact_analysis`. -/
structure ImpactAnalysis where
  affected_packages : Nat
  affected_customers : Nat
  customer_ids : List String
  package_ids : List String
  total_weight : ℤ
deriving DecidableEq, Repr

/-- The rows matched by
`MATCH (t {truck_id})-[:CARRYING]->(p:Package)-[:DESTINED_FOR]->(c:Customer)`:
one (package, customer id) pair per CARRYING edge of the truck and
DESTINED_FOR edge of that package whose endpoints all exist. -/
def impactRows (s : Store) (tid : String) : List (Package × String) :=
  match getTruck s tid with
  | none => []
  | some _ =>
      (s.carrying.filter (fun e => e.1 == tid)).flatMap (fun e =>
        match getPackage s e.2 with
        | none => []
        | some p =>
            (s.destined.filter (fun d => d.1 == e.2)).filterMap (fun d =>
              (getCustomer s d.2).map (fun _ => (p, d.2))))

/-- `get_impact_analysis`: aggregates over the two-hop rows;
`count(p)` counts rows, `collect(DISTINCT c.customer_id)` deduplicates,
`sum(p.weight)` sums per row (0 over no rows). -/
def getImpactAnalysis (s : Store) (tid : String) : ImpactAnalysis :=
  let rows := impactRows s tid
  { affected_packages := rows.length
    affected_customers := ((rows.map (fun r => r.2)).dedup).length
    customer_ids := (rows.map (fun r => r.2)).dedup
    package_ids := rows.map (fun r => r.1.package_id)
    total_weight := (rows.map (fun r => r.1.weight)).sum }

/-- A chaos event, from `DisruptionEvent` in `disruption_simulator.py`
(the wall-clock `timestamp` field is omitted). -/
structure DisruptionEvent where
  event_type : String
  entity_id : String
  severity : String
  description : String
  resolved : Bool
deriving DecidableEq, Repr

/-- The simulator's state: the backing graph plus the append-only
`events_log` and the `active_events` list. -/
structure SimState where
  graph : Store
  events_log : List DisruptionEvent
  active_events : List DisruptionEvent
deriving DecidableEq, Repr

/-- `inject_truck_failure` called with an explicitly named truck.  The source
performs no check on the truck's current status: it builds the event (the
`random.choice` draws of failure category and severity are the explicit
arguments here), calls `update_truck_status(truck_id, "failed")`, appends the
event to both the log and the active list, and returns it. -/
def injectTruckFailure (st : SimState) (tid failureType severity : String) :
    DisruptionEvent × SimState :=
  let ev : DisruptionEvent :=
    ⟨"truck_failure", tid, severity, "Truck " ++ tid ++ ": " ++ failureType, false⟩
  let g := (updateTruckStatus st.graph tid "failed").2
  (ev, ⟨g, st.events_log ++ [ev], st.active_events ++ [ev]⟩)

/-- The count fields of `get_event_statistics` (the by-type / by-severity
breakdown maps are represented by `countEventsOfType` below). -/
structure EventStatistics where
  total_events : Nat
  active_events : Nat
  resolved_events : Nat
deriving DecidableEq, Repr

def getEventStatistics (st : SimState) : EventStatistics :=
  ⟨st.events_log.length, st.active_events.length,
   st.events_log.length - st.active_events.length⟩

/-- One entry of the `by_type` breakdown of `get_event_statistics`. -/
def countEventsOfType (st : SimState) (ty : String) : Nat :=
  (st.events_log.filter (fun e => e.event_type == ty)).length

/-- One plan entry built by `_execute_rerouting` and enriched by
`_calculate_eta` (`distance` carries the squared-distance sort key returned by
`findNearestAvailableTrucks`; the wall-clock `timestamp` / `estimated_eta`
instants are omitted, `delay_hours` is the computed hours value). -/
structure PlanEntry where
  package_id : String
  new_truck_id : String
  distance : ℤ
  delay_hours : Option ℚ
deriving DecidableEq, Repr

/-- The per-package candidate lists collected by `_find_alternatives`. -/
structure PackageCandidates where
  package_id : String
  candidates : List (Truck × ℤ)
deriving DecidableEq, Repr

/-- The shared mutable `ReroutingState` dict of `rerouting_agent.py`. -/
structure ReroutingState where
  failed_truck_id : String
  affected_packages : List String
  available_trucks : List PackageCandidates
  rerouting_plan : List PlanEntry
  status : String
  message : String
deriving DecidableEq, Repr

/-- One record of `rerouting_history` (wall-clock timestamp omitted). -/
structure HistoryEntry where
  failed_truck_id : String
  packages_rerouted : Nat
  plan : List PlanEntry
deriving DecidableEq, Repr

/-- The initial state built by `handle_truck_failure`. -/
def initialReroutingState (tid : String) : ReroutingState :=
  ⟨tid, [], [], [], "initialized", ""⟩

/-- Stage 1, `_detect_failure`: load the truck; when it is missing or its
status is not `failed`, set `status = error` — but only the state dict is
touched, the workflow edge to the next stage is unconditional. -/
def detectFailure (g : Store) (st : ReroutingState) : ReroutingState :=
  match getTruck g st.failed_truck_id with
  | some t =>
      if t.status == "failed" then
        { st with status := "failure_detected",
                  message := "Truck " ++ st.failed_truck_id ++ " failure confirmed" }
      else
        { st with status := "error",
                  message := "Truck " ++ st.failed_truck_id ++ " not found or not in failed state" }
  | none =>
      { st with status := "error",
                message := "Truck " ++ st.failed_truck_id ++ " not found or not in failed state" }

/-- Stage 2, `_assess_impact`: copy `package_ids` of the impact analysis into
`affected_packages`. -/
def assessImpact (g : Store) (st : ReroutingState) : ReroutingState :=
  let impact := getImpactAnalysis g st.failed_truck_id
  { st with affected_packages := impact.package_ids,
            status := "impact_assessed",
            message := "Found " ++ toString impact.package_ids.length ++ " affected packages" }

/-- Stage 3, `_find_alternatives`: with no affected packages, short-status
`no_packages`; otherwise reads the failed truck's position (the source would
raise a `TypeError` here if the truck were missing — modelled as the
exception value) and queries the 5 nearest candidates per affected carried
package, keeping only packages with a nonempty candidate list. -/
def findAlternatives (g : Store) (st : ReroutingState) : Except String ReroutingState :=
  if st.affected_packages.isEmpty then
    .ok { st with status := "no_packages", message := "No packages to reroute",
                  available_trucks := [] }
  else
    match getTruck g st.failed_truck_id with
    | none => .error ("TypeError: truck " ++ st.failed_truck_id ++ " not found")
    | some ft =>
        let packagesData := getTruckPackages g st.failed_truck_id
        let packageDetails := packagesData.filter (fun p => decide (p.package_id ∈ st.affected_packages))
        let available := packageDetails.filterMap (fun p =>
          let cs := findNearestAvailableTrucks g ft.current_lat ft.current_lon p.weight ft.direction 5
          if cs.isEmpty then none else some ⟨p.package_id, cs⟩)
        .ok { st with available_trucks := available, status := "alternatives_found",
                      message := "Found alternative trucks for " ++ toString available.length ++ " packages" }

/-- One iteration of the `_execute_rerouting` loop: transfer to the single
nearest candidate, appending a plan entry only on success (`transfer_package`
returns `False` instead of raising, so the loop never stops early). -/
def executeStep (fid : String) (acc : Store × List PlanEntry) (pc : PackageCandidates) :
    Store × List PlanEntry :=
  match pc.candidates with
  | [] => acc
  | c :: _ =>
      let r := transferPackage acc.1 pc.package_id fid c.1.truck_id
      (r.2, if r.1 then acc.2 ++ [⟨pc.package_id, c.1.truck_id, c.2, none⟩] else acc.2)

/-- Stage 4, `_execute_rerouting`. -/
def executeRerouting (g : Store) (st : ReroutingState) : Store × ReroutingState :=
  let r := st.available_trucks.foldl (executeStep st.failed_truck_id) (g, [])
  (r.1, { st with rerouting_plan := r.2, status := "rerouting_executed",
                  message := "Successfully rerouted " ++ toString r.2.length ++ " packages" })

/-- Stage 5, `_calculate_eta`: `distance_km = distance × 111`,
`hours = distance_km / TRUCK_SPEED_KMH`.  The source's `distance` is the
square root of the stored key, so the square-root function is an explicit
parameter. -/
def calculateEta (sqrtF : ℤ → ℚ) (speedKmh : ℚ) (st : ReroutingState) : ReroutingState :=
  let newPlan := st.rerouting_plan.map (fun e =>
    { e with delay_hours := some (sqrtF e.distance * 111 / speedKmh) })
  { st with rerouting_plan := newPlan,
            status := "eta_calculated",
            message := "ETAs recalculated for all packages" }

/-- Stage 6, `_complete`: set `status = completed` and unconditionally append
a history record. -/
def completeStage (hist : List HistoryEntry) (st : ReroutingState) :
    List HistoryEntry × ReroutingState :=
  (hist ++ [⟨st.failed_truck_id, st.rerouting_plan.length, st.rerouting_plan⟩],
   { st with status := "completed" })

/-- The compiled workflow: the six stages joined by unconditional edges, as
`_build_workflow` wires them (`detect_failure → assess_impact →
find_alternatives → execute_rerouting → calculate_eta → complete`). -/
def runWorkflow (sqrtF : ℤ → ℚ) (speedKmh : ℚ) (g : Store) (hist : List HistoryEntry)
    (tid : String) : Except String (ReroutingState × Store × List HistoryEntry) :=
  match findAlternatives g (assessImpact g (detectFailure g (initialReroutingState tid))) with
  | .error m => .error m
  | .ok st3 =>
      .ok ((completeStage hist (calculateEta sqrtF speedKmh (executeRerouting g st3).2)).2,
        (executeRerouting g st3).1,
        (completeStage hist (calculateEta sqrtF speedKmh (executeRerouting g st3).2)).1)

/-- `handle_truck_failure`: run the workflow; an exception is caught and
surfaced as a `status = error` dict (the graph and history are then whatever
they were when the exception fired — in this model the only exception site is
before any mutation). -/
def handleTruckFailure (sqrtF : ℤ → ℚ) (speedKmh : ℚ) (g : Store)
    (hist : List HistoryEntry) (tid : String) :
    ReroutingState × Store × List HistoryEntry :=
  match runWorkflow sqrtF speedKmh g hist tid with
  | .ok r => r
  | .error m => (⟨tid, [], [], [], "error", m⟩, g, hist)

/-! Concrete fixtures, built only through the modelled store operations. -/

/-- One truck `T1` (capacity 10) and one package `P1` (weight 6), unlinked. -/
def storeTP : Store :=
  createPackage (createTruck emptyStore "T1" 10 0 0 "active" none) "P1" 6 0 0 "pending" "normal"

/-- `storeTP` after `assign_package_to_truck("T1", "P1")`. -/
def storeTP1 : Store := (assignPackageToTruck storeTP "T1" "P1").2

/-- `storeTP1` after a second, identical `assign_package_to_truck` call. -/
def storeTP2 : Store := (assignPackageToTruck storeTP1 "T1" "P1").2

/-- Trucks `T1`, `T2` (capacity 100 each) and package `P1` (weight 5). -/
def storeTwoTrucks : Store :=
  createPackage
    (createTruck (createTruck emptyStore "T1" 100 0 0 "active" none) "T2" 100 0 0 "active" none)
    "P1" 5 0 0 "pending" "normal"

/-- `storeTwoTrucks` after assigning `P1` to `T1` and then to `T2`. -/
def storeDoubleCarrier : Store :=
  (assignPackageToTruck (assignPackageToTruck storeTwoTrucks "T1" "P1").2 "T2" "P1").2

/-- Two active trucks at the same coordinates, `T2` created before `T1`. -/
def storeTieBreak : Store :=
  createTruck (createTruck emptyStore "T2" 100 0 0 "active" none) "T1" 100 0 0 "active" none

/-! Lookup/update lemmas about the list-backed store. -/

theorem findTruck_updateTruck_self (l : List Truck) (tid : String) (f : Truck → Truck)
    (hf : ∀ t, (f t).truck_id = t.truck_id) :
    findTruck (updateTruck l tid f) tid = (findTruck l tid).map f := by
  induction l with
  | nil => rfl
  | cons t l ih =>
      show findTruck ((if t.truck_id == tid then f t else t) :: updateTruck l tid f) tid =
        (findTruck (t :: l) tid).map f
      by_cases h : t.truck_id = tid
      · rw [if_pos (by simpa using h)]
        unfold findTruck
        rw [List.find?_cons_of_pos _ (by simp [hf, h]), List.find?_cons_of_pos _ (by simp [h])]
        rfl
      · rw [if_neg (by simpa using h)]
        unfold findTruck
        rw [List.find?_cons_of_neg _ (by simp [h]), List.find?_cons_of_neg _ (by simp [h])]
        exact ih

theorem findTruck_updateTruck_other (l : List Truck) (tid j : String) (f : Truck → Truck)
    (hf : ∀ t, (f t).truck_id = t.truck_id) (hne : j ≠ tid) :
    findTruck (updateTruck l tid f) j = findTruck l j := by
  induction l with
  | nil => rfl
  | cons t l ih =>
      show findTruck ((if t.truck_id == tid then f t else t) :: updateTruck l tid f) j =
        findTruck (t :: l) j
      by_cases h : t.truck_id = tid
      · rw [if_pos (by simpa using h)]
        unfold findTruck
        rw [List.find?_cons_of_neg _ (by simp [hf, h, Ne.symm hne]),
            List.find?_cons_of_neg _ (by simp [h, Ne.symm hne])]
        exact ih
      · rw [if_neg (by simpa using h)]
        by_cases h2 : t.truck_id = j
        · unfold findTruck
          rw [List.find?_cons_of_pos _ (by simp [h2]), List.find?_cons_of_pos _ (by simp [h2])]
        · unfold findTruck
          rw [List.find?_cons_of_neg _ (by simp [h2]), List.find?_cons_of_neg _ (by simp [h2])]
          exact ih

/-!
C1.  `transfer_package` fails when the CARRYING edge is absent or the
destination truck lacks capacity, and on failure the store is unchanged.
-/

/-- C1: when the CARRYING edge `fromTruckId→packageId` is absent, or the
destination truck's `available_capacity` is below the package's weight
(the source's `NoSuchRelation` / `InsufficientCapacity` failure conditions),
`transfer_package` reports failure and returns the store byte-for-byte
unchanged: no CARRYING edge is added or removed and no capacity is touched. -/
theorem C1_transfer_failure_is_atomic (s : Store) (pid fromId toId : String)
    (h : (fromId, pid) ∉ s.carrying ∨
         ∃ toT p, getTruck s toId = some toT ∧ getPackage s pid = some p ∧
           toT.available_capacity < p.weight) :
    transferPackage s pid fromId toId = (false, s) := by
  unfold transferPackage
  cases hf : getTruck s fromId with
  | none => rfl
  | some tf =>
      cases hp : getPackage s pid with
      | none => rfl
      | some p =>
          cases ht : getTruck s toId with
          | none => rfl
          | some toT =>
              have hneg : ¬ ((fromId, pid) ∈ s.carrying ∧ p.weight ≤ toT.available_capacity) := by
                rintro ⟨hmem, hle⟩
                rcases h with h | ⟨toT', p', ht', hp', hlt⟩
                · exact h hmem
                · rw [ht, Option.some.injEq] at ht'
                  rw [hp, Option.some.injEq] at hp'
                  subst ht' hp'
                  exact absurd hle (not_le.mpr hlt)
              exact if_neg hneg

/-- Witness for C1 at a concrete store: no CARRYING edge exists in `storeTP`,
and the transfer indeed fails leaving the store unchanged. -/
theorem C1_transfer_failure_is_atomic_witness :
    ("T1", "P1") ∉ storeTP.carrying ∧
    transferPackage storeTP "P1" "T1" "T1" = (false, storeTP) :=
  ⟨by decide, C1_transfer_failure_is_atomic storeTP "P1" "T1" "T1" (Or.inl (by decide))⟩

/-!
C2.  The capacity invariants do not survive every store operation: a repeated
`assign_package_to_truck` merges the CARRYING edge (no duplicate) but runs the
debiting `SET` again.
-/

/-- C2 (failing input): after `create_truck("T1", capacity 10)`,
`create_package("P1", weight 6)` and two identical
`assign_package_to_truck("T1", "P1")` calls, `T1.available_capacity` is −2
while only `P1` (weight 6) is CARRYING-linked: both `0 ≤ available_capacity`
and `available_capacity = capacity − Σ weight` are violated, refuting the
claimed invariant. -/
theorem C2_invariant_violated_by_reassign :
    getTruck storeTP2 "T1" = some ⟨"T1", 10, -2, 0, 0, "active", none⟩ ∧
    carriedWeight storeTP2 "T1" = 6 ∧
    ¬ (0 ≤ (-2 : ℤ)) ∧ (-2 : ℤ) ≠ 10 - 6 := by decide

/-!
C3.  At-most-one-carrier does not survive every operation sequence:
assigning the same package to a second truck adds a second CARRYING edge.
-/

/-- C3 (failing input): `assign_package_to_truck("T1", "P1")` followed by
`assign_package_to_truck("T2", "P1")` leaves `P1` with two simultaneous
carriers, refuting the claimed at-most-one-carrier invariant. -/
theorem C3_two_simultaneous_carriers :
    carriersOf storeDoubleCarrier "P1" = ["T1", "T2"] ∧
    2 ≤ (carriersOf storeDoubleCarrier "P1").length := by decide

/-!
C5.  Re-creating an existing CARRYING edge is not a complete no-op: the
`MERGE` creates no duplicate edge, but the unconditional `SET` debits the
truck's `available_capacity` a second time.
-/

/-- C5 counterexample: with the CARRYING edge `T1→P1` already present
(`storeTP1`, `available_capacity = 4`), a second identical
`assign_package_to_truck` call does not leave the store unchanged: the
capacity is debited again, to −2. -/
theorem C5_counterexample_second_assign_changes_store :
    (assignPackageToTruck storeTP1 "T1" "P1").2 ≠ storeTP1 ∧
    getTruck (assignPackageToTruck storeTP1 "T1" "P1").2 "T1" =
      some ⟨"T1", 10, -2, 0, 0, "active", none⟩ ∧
    getTruck storeTP1 "T1" = some ⟨"T1", 10, 4, 0, 0, "active", none⟩ := by decide

/-- C5 (amended): re-assigning an already CARRYING-linked package succeeds,
creates no duplicate edge (the edge list is unchanged), but debits the
truck's `available_capacity` by the package weight a second time. -/
theorem C5_amended_reassign_merges_edge_but_debits_again
    (s : Store) (tid pid : String) (t : Truck) (p : Package)
    (ht : getTruck s tid = some t) (hp : getPackage s pid = some p)
    (hmem : (tid, pid) ∈ s.carrying) :
    (assignPackageToTruck s tid pid).1 = true ∧
    (assignPackageToTruck s tid pid).2.carrying = s.carrying ∧
    getTruck (assignPackageToTruck s tid pid).2 tid =
      some { t with available_capacity := t.available_capacity - p.weight } := by
  unfold assignPackageToTruck
  rw [ht, hp]
  refine ⟨rfl, by simp [hmem], ?_⟩
  show findTruck (updateTruck s.trucks tid
    (fun t => { t with available_capacity := t.available_capacity - p.weight })) tid = _
  rw [findTruck_updateTruck_self s.trucks tid
    (fun t => { t with available_capacity := t.available_capacity - p.weight }) (fun _ => rfl)]
  rw [show findTruck s.trucks tid = some t from ht]
  rfl

/-- Witness for the amended C5 at `storeTP1`: the second assign keeps the
edge list and moves `available_capacity` from 4 to 4 − 6. -/
theorem C5_amended_witness :
    (assignPackageToTruck storeTP1 "T1" "P1").1 = true ∧
    (assignPackageToTruck storeTP1 "T1" "P1").2.carrying = storeTP1.carrying ∧
    getTruck (assignPackageToTruck storeTP1 "T1" "P1").2 "T1" =
      some ⟨"T1", 10, 4 - 6, 0, 0, "active", none⟩ :=
  C5_amended_reassign_merges_edge_but_debits_again storeTP1 "T1" "P1"
    ⟨"T1", 10, 4, 0, 0, "active", none⟩ ⟨"P1", 6, 0, 0, "in_transit", "normal"⟩
    (by decide) (by decide) (by decide)

/-!
C7.  `find_nearest_available_trucks` has no tie-break on truck id: the query
orders by distance only, so equal-distance trucks come back in scan order.
-/

/-- C7 (failing input): two active trucks at the query point, `T2` created
before `T1`.  Both are at distance 0, yet the result lists `T2` before `T1`
— ties follow scan order, not ascending truck id. -/
theorem C7_no_id_tiebreak_on_equal_distance :
    (findNearestAvailableTrucks storeTieBreak 0 0 1 none 5).map (fun r => r.1.truck_id) =
      ["T2", "T1"] ∧
    (findNearestAvailableTrucks storeTieBreak 0 0 1 none 5).map (fun r => r.2) = [0, 0] := by
  decide

/-!
C8.  `inject_truck_failure` with a named truck never checks the truck's
status: a second call on an already-failed truck appends a second event and
double-counts the statistics.
-/

/-- One active truck `T1` in an otherwise empty graph. -/
def storeOneActive : Store := createTruck emptyStore "T1" 100 0 0 "active" none

/-- First `inject_truck_failure("T1")` (choice arguments made explicit). -/
def simAfterFirst : DisruptionEvent × SimState :=
  injectTruckFailure ⟨storeOneActive, [], []⟩ "T1" "Engine Failure" "high"

/-- Second `inject_truck_failure("T1")`, on the now-failed truck. -/
def simAfterSecond : DisruptionEvent × SimState :=
  injectTruckFailure simAfterFirst.2 "T1" "Tire Blowout" "critical"

/-- C8 (failing input): after the first injection `T1` is `failed`, so the
second call names a non-active truck — yet it returns an event, appends it to
both the log and the active list, and the statistics double-count. -/
theorem C8_second_injection_appends_and_double_counts :
    (getTruck simAfterFirst.2.graph "T1").map Truck.status = some "failed" ∧
    simAfterSecond.1.event_type = "truck_failure" ∧
    simAfterSecond.2.events_log.length = 2 ∧
    simAfterSecond.2.active_events.length = 2 ∧
    getEventStatistics simAfterSecond.2 = ⟨2, 2, 0⟩ ∧
    countEventsOfType simAfterSecond.2 "truck_failure" = 2 := by decide

/-!
C4.  `handle_truck_failure` on a truck that is not in `failed` status: the
workflow edges are unconditional, so every later stage still runs, the final
status is `completed`, a history record is appended — and with an eligible
alternative truck the packages of the (still active!) truck are transferred
away.
-/

/-- `T1` active with capacity 6 fully consumed by package `P1` (weight 6,
destined for customer `C1`); `T2` active with free capacity at (1,1). -/
def storeActiveCarrier : Store :=
  (assignPackageDestination
    ((assignPackageToTruck
      (createCustomer
        (createPackage
          (createTruck (createTruck emptyStore "T1" 6 0 0 "active" none)
            "T2" 100 1 1 "active" none)
          "P1" 6 5 5 "pending" "normal")
        "C1" "Ada" 5 5 24)
      "T1" "P1").2) "P1" "C1").2

/-- C4 (failing input): `handle_truck_failure("T1")` while `T1` is `active`.
Stage 1 records the error, but the pipeline runs on: the final status is
`completed`, the package is transferred off the active truck onto `T2`, and a
history record is appended — contradicting the claimed error short-circuit,
no-mutation and no-history guarantees. -/
theorem C4_error_does_not_short_circuit :
    (getTruck storeActiveCarrier "T1").map Truck.status = some "active" ∧
    (handleTruckFailure (fun q => (q : ℚ)) 60 storeActiveCarrier [] "T1").1.status = "completed" ∧
    (handleTruckFailure (fun q => (q : ℚ)) 60 storeActiveCarrier [] "T1").2.1.carrying =
      [("T2", "P1")] ∧
    (handleTruckFailure (fun q => (q : ℚ)) 60 storeActiveCarrier [] "T1").2.2.length = 1 := by
  decide

/-!
C6.  `find_nearest_available_trucks`: bounded length, ascending distance,
filters respected, and an empty (not failing) result when nothing matches.
-/

/-- C6: for every store and every argument list, the query returns at most
`limit` rows, sorted ascending by the distance key (`distSq`, the squared
planar Euclidean distance — `sqrt` is strictly monotone, so this is the
source's distance order), every returned truck passes the
status/capacity/direction filter with its key equal to its distance from the
query point, and when no truck satisfies the constraints the result is the
empty sequence (the query never errors). -/
theorem C6_find_nearest_respects_filters_order_limit
    (s : Store) (lat lon minCapacity : ℤ) (direction : Option String) (limit : Nat) :
    (findNearestAvailableTrucks s lat lon minCapacity direction limit).length ≤ limit ∧
    List.Sorted distKeyLE (findNearestAvailableTrucks s lat lon minCapacity direction limit) ∧
    (∀ r ∈ findNearestAvailableTrucks s lat lon minCapacity direction limit,
      truckMatches r.1 minCapacity direction = true ∧ r.2 = distSq lat lon r.1) ∧
    ((∀ t ∈ s.trucks, truckMatches t minCapacity direction = false) →
      findNearestAvailableTrucks s lat lon minCapacity direction limit = []) := by
  refine ⟨?_, ?_, ?_, ?_⟩
  · simp only [findNearestAvailableTrucks, List.length_take]
    exact min_le_left _ _
  · exact (List.sorted_insertionSort distKeyLE _).sublist (List.take_sublist _ _)
  · intro r hr
    have h1 : r ∈ ((s.trucks.filter (fun t => truckMatches t minCapacity direction)).map
        (fun t => (t, distSq lat lon t))) :=
      (List.perm_insertionSort distKeyLE _).subset ((List.take_sublist _ _).subset hr)
    rcases List.mem_map.mp h1 with ⟨t, htf, rfl⟩
    exact ⟨(List.mem_filter.mp htf).2, rfl⟩
  · intro hall
    have hnil : s.trucks.filter (fun t => truckMatches t minCapacity direction) = [] :=
      List.filter_eq_nil_iff.mpr (fun t htl => by simp [hall t htl])
    simp [findNearestAvailableTrucks, hnil]

/-- Witness for C6 at a concrete store: with `limit = 1` the nearer layout is
returned and the bound holds; with `minCapacity = 200` (exceeding every
truck's availability, spec Scenario C) the result is empty. -/
theorem C6_find_nearest_witness :
    findNearestAvailableTrucks storeTieBreak 0 0 1 none 1 =
      [(⟨"T2", 100, 100, 0, 0, "active", none⟩, 0)] ∧
    (findNearestAvailableTrucks storeTieBreak 0 0 1 none 1).length ≤ 1 ∧
    findNearestAvailableTrucks storeTieBreak 0 0 200 none 5 = [] :=
  ⟨by decide,
   (C6_find_nearest_respects_filters_order_limit storeTieBreak 0 0 1 none 1).1,
   (C6_find_nearest_respects_filters_order_limit storeTieBreak 0 0 200 none 5).2.2.2 (by decide)⟩

/-!
C9.  The round trip `transfer_package(p, A, B); transfer_package(p, B, A)`
restores both trucks' available capacity exactly.
-/

/-- When every precondition of `transfer_package` holds, the store is updated
exactly as the Cypher write clauses say. -/
theorem transferPackage_success (s : Store) (pid fromId toId : String)
    (tf toT : Truck) (p : Package)
    (hf : getTruck s fromId = some tf) (hp : getPackage s pid = some p)
    (ht : getTruck s toId = some toT)
    (hmem : (fromId, pid) ∈ s.carrying) (hcap : p.weight ≤ toT.available_capacity) :
    transferPackage s pid fromId toId = (true, { s with
      carrying := (s.carrying.filter (fun e => decide (e ≠ (fromId, pid)))) ++ [(toId, pid)],
      trucks := updateTruck (updateTruck s.trucks fromId (creditW p.weight)) toId
        (debitW p.weight) }) := by
  unfold transferPackage
  rw [hf, hp, ht]
  exact if_pos ⟨hmem, hcap⟩

/-- C9: for a package `p` carried by truck `A`, a destination truck `B ≠ A`
with capacity for `p`, and `A`'s own bookkeeping nonnegative (so the reverse
precondition holds after the first transfer), both transfers succeed and both
trucks' `available_capacity` return exactly to their initial values. -/
theorem C9_round_trip_restores_capacities (s : Store) (pid A B : String)
    (ta tb : Truck) (p : Package)
    (hA : getTruck s A = some ta) (hB : getTruck s B = some tb)
    (hp : getPackage s pid = some p) (hAB : A ≠ B)
    (hmem : (A, pid) ∈ s.carrying)
    (hcap : p.weight ≤ tb.available_capacity)
    (hpos : 0 ≤ ta.available_capacity) :
    (transferPackage s pid A B).1 = true ∧
    (transferPackage (transferPackage s pid A B).2 pid B A).1 = true ∧
    (getTruck (transferPackage (transferPackage s pid A B).2 pid B A).2 A).map
      Truck.available_capacity = some ta.available_capacity ∧
    (getTruck (transferPackage (transferPackage s pid A B).2 pid B A).2 B).map
      Truck.available_capacity = some tb.available_capacity := by
  have e1 := transferPackage_success s pid A B ta tb p hA hp hB hmem hcap
  set s1 : Store := { s with
    carrying := (s.carrying.filter (fun e => decide (e ≠ (A, pid)))) ++ [(B, pid)],
    trucks := updateTruck (updateTruck s.trucks A (creditW p.weight)) B (debitW p.weight) }
    with hs1def
  have hA1 : getTruck s1 A = some (creditW p.weight ta) := by
    show findTruck (updateTruck (updateTruck s.trucks A (creditW p.weight)) B
      (debitW p.weight)) A = some (creditW p.weight ta)
    rw [findTruck_updateTruck_other (updateTruck s.trucks A (creditW p.weight)) B A
          (debitW p.weight) (fun _ => rfl) hAB,
        findTruck_updateTruck_self s.trucks A (creditW p.weight) (fun _ => rfl),
        show findTruck s.trucks A = some ta from hA]
    rfl
  have hB1 : getTruck s1 B = some (debitW p.weight tb) := by
    show findTruck (updateTruck (updateTruck s.trucks A (creditW p.weight)) B
      (debitW p.weight)) B = some (debitW p.weight tb)
    rw [findTruck_updateTruck_self (updateTruck s.trucks A (creditW p.weight)) B
          (debitW p.weight) (fun _ => rfl),
        findTruck_updateTruck_other s.trucks A B (creditW p.weight) (fun _ => rfl) (Ne.symm hAB),
        show findTruck s.trucks B = some tb from hB]
    rfl
  have hp1 : getPackage s1 pid = some p := hp
  have hmem1 : (B, pid) ∈ s1.carrying :=
    List.mem_append_right _ (List.mem_singleton_self _)
  have hcap1 : p.weight ≤ (creditW p.weight ta).available_capacity :=
    le_add_of_nonneg_left hpos
  have e2 := transferPackage_success s1 pid B A (debitW p.weight tb) (creditW p.weight ta) p
    hB1 hp1 hA1 hmem1 hcap1
  refine ⟨by rw [e1], ?_, ?_, ?_⟩
  · rw [show (transferPackage s pid A B).2 = s1 from by rw [e1], e2]
  · rw [show (transferPackage s pid A B).2 = s1 from by rw [e1], e2]
    show Option.map Truck.available_capacity
      (findTruck (updateTruck (updateTruck s1.trucks B (creditW p.weight)) A
        (debitW p.weight)) A) = some ta.available_capacity
    rw [findTruck_updateTruck_self (updateTruck s1.trucks B (creditW p.weight)) A
          (debitW p.weight) (fun _ => rfl),
        findTruck_updateTruck_other s1.trucks B A (creditW p.weight) (fun _ => rfl) hAB,
        show findTruck s1.trucks A = some (creditW p.weight ta) from hA1]
    show some (ta.available_capacity + p.weight - p.weight) = some ta.available_capacity
    rw [add_sub_cancel_right]
  · rw [show (transferPackage s pid A B).2 = s1 from by rw [e1], e2]
    show Option.map Truck.available_capacity
      (findTruck (updateTruck (updateTruck s1.trucks B (creditW p.weight)) A
        (debitW p.weight)) B) = some tb.available_capacity
    rw [findTruck_updateTruck_other (updateTruck s1.trucks B (creditW p.weight)) A B
          (debitW p.weight) (fun _ => rfl) (Ne.symm hAB),
        findTruck_updateTruck_self s1.trucks B (creditW p.weight) (fun _ => rfl),
        show findTruck s1.trucks B = some (debitW p.weight tb) from hB1]
    show some (tb.available_capacity - p.weight + p.weight) = some tb.available_capacity
    rw [sub_add_cancel]

/-- Trucks `A` (capacity 10, carrying `P` of weight 6, so availability 4) and
`B` (capacity 20, free). -/
def storeRT : Store :=
  (assignPackageToTruck
    (createPackage
      (createTruck (createTruck emptyStore "A" 10 0 0 "active" none) "B" 20 3 4 "active" none)
      "P" 6 0 0 "pending" "normal")
    "A" "P").2

/-- Witness for C9 at `storeRT`: both transfers succeed and `A`, `B` end at
availability 4 and 20 again. -/
theorem C9_round_trip_witness :
    (transferPackage storeRT "P" "A" "B").1 = true ∧
    (transferPackage (transferPackage storeRT "P" "A" "B").2 "P" "B" "A").1 = true ∧
    (getTruck (transferPackage (transferPackage storeRT "P" "A" "B").2 "P" "B" "A").2 "A").map
      Truck.available_capacity = some 4 ∧
    (getTruck (transferPackage (transferPackage storeRT "P" "A" "B").2 "P" "B" "A").2 "B").map
      Truck.available_capacity = some 20 :=
  C9_round_trip_restores_capacities storeRT "P" "A" "B"
    ⟨"A", 10, 4, 0, 0, "active", none⟩ ⟨"B", 20, 20, 3, 4, "active", none⟩
    ⟨"P", 6, 0, 0, "in_transit", "normal"⟩
    (by decide) (by decide) (by decide) (by decide) (by decide) (by decide) (by decide)

/-!
C10.  `get_impact_analysis` traverses
`(t)-[:CARRYING]->(p)-[:DESTINED_FOR]->(c)`, so a carried package with no
DESTINED_FOR edge contributes nothing; consequently `handle_truck_failure`
never lists it and never transfers it off the truck.
-/

/-- `s` with every CARRYING edge `(tid, q)` removed — used to state that such
a package contributes nothing to the impact analysis. -/
def removeCarrying (s : Store) (tid q : String) : Store :=
  { s with carrying := s.carrying.filter (fun e => decide (e ≠ (tid, q))) }

theorem getPackage_id (s : Store) (pid : String) (p : Package)
    (h : getPackage s pid = some p) : p.package_id = pid := by
  have h2 := List.find?_some h
  simpa using h2

/-- Every row of the two-hop impact traversal comes from a DESTINED_FOR edge
of its package. -/
theorem mem_impactRows_destined (s : Store) (tid : String) (r : Package × String)
    (hr : r ∈ impactRows s tid) : (r.1.package_id, r.2) ∈ s.destined := by
  unfold impactRows at hr
  cases hft : getTruck s tid with
  | none => rw [hft] at hr; exact absurd hr (by simp)
  | some t =>
      rw [hft] at hr
      rcases List.mem_flatMap.mp hr with ⟨e, hel, hin⟩
      cases hfp : getPackage s e.2 with
      | none => rw [hfp] at hin; exact absurd hin (by simp)
      | some p =>
          rw [hfp] at hin
          rcases List.mem_filterMap.mp hin with ⟨d, hdl, hd⟩
          cases hfc : getCustomer s d.2 with
          | none => rw [hfc] at hd; exact absurd hd (by simp)
          | some c =>
              rw [hfc] at hd
              injection hd with hd2
              subst hd2
              rcases List.mem_filter.mp hdl with ⟨hdmem, hdeq⟩
              have hd1 : d.1 = e.2 := by simpa using hdeq
              have hpid : p.package_id = e.2 := getPackage_id s e.2 p hfp
              show (p.package_id, d.2) ∈ s.destined
              have hde : (p.package_id, d.2) = d := by
                rw [hpid, ← hd1]
              rw [hde]
              exact hdmem

/-- C10 part 1: a package with no DESTINED_FOR edge never appears in
`package_ids`. -/
theorem not_mem_impact_package_ids (s : Store) (tid q : String)
    (hnodest : ∀ e ∈ s.destined, e.1 ≠ q) :
    q ∉ (getImpactAnalysis s tid).package_ids := by
  intro hq
  rcases List.mem_map.mp hq with ⟨r, hr, hid⟩
  exact hnodest (r.1.package_id, r.2) (mem_impactRows_destined s tid r hr) hid

theorem flatMap_filter_erase (l : List (String × String)) (tid q : String)
    (g : String × String → List (Package × String)) (hq : g (tid, q) = []) :
    ((l.filter (fun e => decide (e ≠ (tid, q)))).filter (fun e => e.1 == tid)).flatMap g =
      (l.filter (fun e => e.1 == tid)).flatMap g := by
  induction l with
  | nil => rfl
  | cons x xs ih =>
      by_cases hx : x = (tid, q)
      · subst hx
        rw [List.filter_cons_of_neg (by simp), List.filter_cons_of_pos (by simp),
            List.flatMap_cons, hq, List.nil_append, ih]
      · rw [List.filter_cons_of_pos (by simp [hx])]
        by_cases hx1 : (x.1 == tid) = true
        · rw [List.filter_cons_of_pos (by exact hx1), List.filter_cons_of_pos (by exact hx1),
              List.flatMap_cons, List.flatMap_cons, ih]
        · rw [List.filter_cons_of_neg (by simp [hx1]), List.filter_cons_of_neg (by simp [hx1]), ih]

/-- Removing the CARRYING edge of a package with no DESTINED_FOR edge does
not change the impact rows. -/
theorem impactRows_removeCarrying (s : Store) (tid q : String)
    (hnodest : ∀ e ∈ s.destined, e.1 ≠ q) :
    impactRows (removeCarrying s tid q) tid = impactRows s tid := by
  have hfil : s.destined.filter (fun d => d.1 == q) = [] :=
    List.filter_eq_nil_iff.mpr (fun d hd => by simp [hnodest d hd])
  unfold impactRows removeCarrying
  simp only [getTruck, getPackage, getCustomer, findTruck]
  cases s.trucks.find? (fun t => t.truck_id == tid) with
  | none => rfl
  | some t =>
      refine flatMap_filter_erase s.carrying tid q _ ?_
      simp only []
      cases hfp : s.packages.find? (fun p => p.package_id == q) with
      | none => rfl
      | some p =>
          rw [hfil]
          rfl

/-- C10 part 2: the whole impact analysis (counts, id lists, total weight) is
unchanged by the presence of the undestined package's CARRYING edge. -/
theorem impact_removeCarrying (s : Store) (tid q : String)
    (hnodest : ∀ e ∈ s.destined, e.1 ≠ q) :
    getImpactAnalysis (removeCarrying s tid q) tid = getImpactAnalysis s tid := by
  unfold getImpactAnalysis
  rw [impactRows_removeCarrying s tid q hnodest]

theorem detectFailure_fields (g : Store) (st : ReroutingState) :
    (detectFailure g st).failed_truck_id = st.failed_truck_id ∧
    (detectFailure g st).affected_packages = st.affected_packages := by
  unfold detectFailure
  cases getTruck g st.failed_truck_id with
  | none => exact ⟨rfl, rfl⟩
  | some t =>
      by_cases h : t.status = "failed"
      · simp [h]
      · simp [h]

theorem findAlternatives_ok (g : Store) (st st' : ReroutingState)
    (h : findAlternatives g st = .ok st') :
    st'.affected_packages = st.affected_packages ∧
    st'.failed_truck_id = st.failed_truck_id ∧
    ∀ pc ∈ st'.available_trucks, pc.package_id ∈ st.affected_packages := by
  unfold findAlternatives at h
  by_cases he : (st.affected_packages.isEmpty) = true
  · rw [if_pos he] at h
    have h2 := Except.ok.inj h
    subst h2
    exact ⟨rfl, rfl, fun pc hpc => absurd hpc (by simp)⟩
  · rw [if_neg he] at h
    cases hft : getTruck g st.failed_truck_id with
    | none => rw [hft] at h; exact Except.noConfusion h
    | some ft =>
        rw [hft] at h
        have h2 := Except.ok.inj h
        subst h2
        refine ⟨rfl, rfl, ?_⟩
        intro pc hpc
        rcases List.mem_filterMap.mp hpc with ⟨p, hpmem, hsome⟩
        by_cases hcs : ((findNearestAvailableTrucks g ft.current_lat ft.current_lon p.weight
            ft.direction 5).isEmpty) = true
        · rw [if_pos hcs] at hsome
          exact Option.noConfusion hsome
        · rw [if_neg hcs] at hsome
          have h3 := Option.some.inj hsome
          subst h3
          have h4 := (List.mem_filter.mp hpmem).2
          exact of_decide_eq_true h4

/-- A successful or failed transfer of a package `pid ≠ q` never disturbs
a CARRYING edge `(tid, q)`. -/
theorem transferPackage_preserves_other_edge (s : Store) (pid fromId toId tid q : String)
    (hne : pid ≠ q) (hmem : (tid, q) ∈ s.carrying) :
    (tid, q) ∈ (transferPackage s pid fromId toId).2.carrying := by
  unfold transferPackage
  cases getTruck s fromId with
  | none => exact hmem
  | some tf =>
      cases getPackage s pid with
      | none => exact hmem
      | some p =>
          cases getTruck s toId with
          | none => exact hmem
          | some toT =>
              by_cases hc : (fromId, pid) ∈ s.carrying ∧ p.weight ≤ toT.available_capacity
              · simp only [if_pos hc]
                show (tid, q) ∈
                  (s.carrying.filter (fun e => decide (e ≠ (fromId, pid)))) ++ [(toId, pid)]
                refine List.mem_append_left _ (List.mem_filter.mpr ⟨hmem, ?_⟩)
                simp only [decide_eq_true_eq]
                intro hcontr
                exact hne (congrArg Prod.snd hcontr).symm
              · simp only [if_neg hc]
                exact hmem

theorem foldl_executeStep_preserves (fid tid q : String) (l : List PackageCandidates)
    (hq : ∀ pc ∈ l, pc.package_id ≠ q) :
    ∀ acc : Store × List PlanEntry, (tid, q) ∈ acc.1.carrying →
      (tid, q) ∈ (l.foldl (executeStep fid) acc).1.carrying := by
  induction l with
  | nil => intro acc h; exact h
  | cons pc l ih =>
      intro acc hacc
      rw [List.foldl_cons]
      refine ih (fun x hx => hq x (List.mem_cons_of_mem _ hx)) _ ?_
      unfold executeStep
      cases pc.candidates with
      | nil => exact hacc
      | cons c cs =>
          exact transferPackage_preserves_other_edge acc.1 pc.package_id fid c.1.truck_id tid q
            (hq pc (List.mem_cons_self _ _)) hacc

/-- C10: for every store in which truck `tid` carries a package `q` that has
no DESTINED_FOR edge, (1) `q` is absent from the impact analysis'
`package_ids`, (2) the whole impact analysis — `affected_packages` count,
customer fields and `total_weight` — is exactly what it would be without the
`(tid, q)` CARRYING edge, (3) `handle_truck_failure(tid)` never lists `q` in
`affected_packages`, and (4) the CARRYING edge `tid→q` is still present in
the graph afterwards: the pipeline never transfers `q` off the truck. -/
theorem C10_undestined_package_never_affected (sqrtF : ℤ → ℚ) (speed : ℚ)
    (s : Store) (hist : List HistoryEntry) (tid q : String)
    (hcar : (tid, q) ∈ s.carrying)
    (hnodest : ∀ e ∈ s.destined, e.1 ≠ q) :
    q ∉ (getImpactAnalysis s tid).package_ids ∧
    getImpactAnalysis (removeCarrying s tid q) tid = getImpactAnalysis s tid ∧
    q ∉ (handleTruckFailure sqrtF speed s hist tid).1.affected_packages ∧
    (tid, q) ∈ (handleTruckFailure sqrtF speed s hist tid).2.1.carrying := by
  have h1 := not_mem_impact_package_ids s tid q hnodest
  have h2 := impact_removeCarrying s tid q hnodest
  have hfid1 : (detectFailure s (initialReroutingState tid)).failed_truck_id = tid :=
    (detectFailure_fields s (initialReroutingState tid)).1
  have haff2 : (assessImpact s (detectFailure s (initialReroutingState tid))).affected_packages =
      (getImpactAnalysis s tid).package_ids := by
    show (getImpactAnalysis s
      (detectFailure s (initialReroutingState tid)).failed_truck_id).package_ids = _
    rw [hfid1]
  refine ⟨h1, h2, ?_, ?_⟩
  · unfold handleTruckFailure runWorkflow
    cases hfa : findAlternatives s (assessImpact s (detectFailure s (initialReroutingState tid)))
      with
    | error m => simp
    | ok st3 =>
        have hok := findAlternatives_ok s _ st3 hfa
        show q ∉ st3.affected_packages
        rw [hok.1, haff2]
        exact h1
  · unfold handleTruckFailure runWorkflow
    cases hfa : findAlternatives s (assessImpact s (detectFailure s (initialReroutingState tid)))
      with
    | error m => exact hcar
    | ok st3 =>
        have hok := findAlternatives_ok s _ st3 hfa
        show (tid, q) ∈
          ((st3.available_trucks.foldl (executeStep st3.failed_truck_id) (s, []))).1.carrying
        refine foldl_executeStep_preserves st3.failed_truck_id tid q st3.available_trucks
          ?_ (s, []) hcar
        intro pc hpc heq
        apply h1
        rw [← haff2]
        exact heq ▸ hok.2.2 pc hpc

/-- Truck `TX` carrying package `Q1` (weight 4) that has no DESTINED_FOR
edge. -/
def storeC10 : Store :=
  (assignPackageToTruck
    (createPackage (createTruck emptyStore "TX" 10 0 0 "active" none) "Q1" 4 0 0 "pending" "normal")
    "TX" "Q1").2

/-- Witness for C10 at `storeC10`. -/
theorem C10_undestined_witness :
    "Q1" ∉ (getImpactAnalysis storeC10 "TX").package_ids ∧
    getImpactAnalysis (removeCarrying storeC10 "TX" "Q1") "TX" = getImpactAnalysis storeC10 "TX" ∧
    "Q1" ∉ (handleTruckFailure (fun z => (z : ℚ)) 60 storeC10 [] "TX").1.affected_packages ∧
    ("TX", "Q1") ∈ (handleTruckFailure (fun z => (z : ℚ)) 60 storeC10 [] "TX").2.1.carrying :=
  C10_undestined_package_never_affected (fun z => (z : ℚ)) 60 storeC10 [] "TX" "Q1"
    (by decide) (by decide)

end SupplyChain
